import Mathlib

/-!
Verification development for the Session Lifecycle Manager of the
advanced-mcp-server repository (src/session_manager.py).

The Python module is shallowly embedded: Python dicts become ordered
association lists `List (String × _)`, `datetime.now()` becomes an explicit
`now : Int` argument threaded into each call (seconds), and the dataclasses
become Lean structures.  Exceptions become an `Err` sum type; an operation
returns its post-state together with `Except Err α`.  Statements inside a
`try` body that can raise in Python (every statement can raise, e.g.
`MemoryError`) are modelled with an explicit fault oracle `fault : Option Nat`
meaning "an exception is raised immediately before the numbered statement";
`none` means no exception occurs.
-/

set_option maxHeartbeats 1000000

namespace SessionModel

/-- Python values, as far as the session manager needs them. -/
inductive PyVal where
  | int : Int → PyVal
  | str : String → PyVal
  | bool : Bool → PyVal
  | pynone : PyVal
  | dict : List (String × PyVal) → PyVal
  | list : List PyVal → PyVal

/-- Lookup in a Python dict (ordered association list, first match). -/
def dictGet (d : List (String × α)) (k : String) : Option α :=
  match d with
  | [] => none
  | (k₁, v) :: t => if k₁ = k then some v else dictGet t k

/-- `d[k] = v` on a Python dict: replace the first binding of `k`, else append. -/
def dictSet (d : List (String × α)) (k : String) (v : α) : List (String × α) :=
  match d with
  | [] => [(k, v)]
  | (k₁, v₁) :: t => if k₁ = k then (k, v) :: t else (k₁, v₁) :: dictSet t k v

/-- `del d[k]` on a Python dict: drop the first binding of `k`. -/
def dictRemove (d : List (String × α)) (k : String) : List (String × α) :=
  match d with
  | [] => []
  | (k₁, v₁) :: t => if k₁ = k then t else (k₁, v₁) :: dictRemove t k

/-- `k in d` on a Python dict. -/
def dictHasKey (d : List (String × α)) (k : String) : Bool :=
  (dictGet d k).isSome

/-- `d.update(u)` on a Python dict value (used by the override merge branch). -/
def pyDictUpdate (v : PyVal) (u : PyVal) : PyVal :=
  match v, u with
  | .dict d, .dict u₁ => .dict (u₁.foldl (fun acc p => dictSet acc p.1 p.2) d)
  | _, _ => v

/-- `asdict(SessionConfig(...))`: the dataclass as an 8-key dict, in field
order (session_type, timeout_minutes, max_operations, auto_cleanup,
persist_state, log_level, resource_limits, custom_settings). -/
def configDict (ty : String) (tm mo : Int) (ac ps : Bool) (ll : String)
    (rl cs : List (String × PyVal)) : List (String × PyVal) :=
  [("session_type", .str ty), ("timeout_minutes", .int tm),
   ("max_operations", .int mo), ("auto_cleanup", .bool ac),
   ("persist_state", .bool ps), ("log_level", .str ll),
   ("resource_limits", .dict rl), ("custom_settings", .dict cs)]

/-- `SessionManager._load_session_templates`: the seven built-in templates,
with the dataclass defaults (log_level "INFO", empty resource_limits and
custom_settings) filled in where the source omits them. -/
def sessionTemplates : List (String × List (String × PyVal)) :=
  [("default", configDict "default" 60 1000 true true "INFO" [] []),
   ("api_workflow", configDict "api_workflow" 120 5000 true true "INFO"
      [("max_concurrent_api_calls", .int 10)] []),
   ("file_processing", configDict "file_processing" 180 10000 true true "INFO"
      [("max_file_size_mb", .int 100), ("max_files", .int 1000)] []),
   ("batch_operation", configDict "batch_operation" 300 50000 true true "INFO"
      [("batch_size", .int 100), ("max_concurrent_batches", .int 5)] []),
   ("development", configDict "development" 240 2000 false true "DEBUG" [] []),
   ("testing", configDict "testing" 30 500 true false "DEBUG" [] []),
   ("maintenance", configDict "maintenance" 600 100 false true "INFO" []
      [("allow_system_operations", .bool true)])]

/-- `SessionManager._get_session_config`, at the dict level.  The source
loops over the override items; a key already present in `config_dict` is
replaced wholesale (`config_dict[key] = value`); only a key that is absent
from `config_dict` AND is named resource_limits/custom_settings would be
merged (`config_dict[key].update(value)`).  Since `asdict` always yields all
eight dataclass keys, that elif branch is unreachable in the source; it is
reproduced here faithfully. -/
def getSessionConfigDict (templates : List (String × List (String × PyVal)))
    (ty : String) (override : Option (List (String × PyVal))) :
    List (String × PyVal) :=
  let base :=
    match dictGet templates ty with
    | some c => c
    | none => (dictGet templates "default").getD []
  match override with
  | none => base
  | some ov =>
      ov.foldl (fun cd kv =>
        if dictHasKey cd kv.1 then dictSet cd kv.1 kv.2
        else if kv.1 = "resource_limits" ∨ kv.1 = "custom_settings" then
          dictSet cd kv.1 (pyDictUpdate ((dictGet cd kv.1).getD (.dict [])) kv.2)
        else cd) base

/-- `SessionStatus` enumeration. -/
inductive SessionStatus where
  | initializing
  | active
  | paused
  | completing
  | completed
  | failed
  | timeout
deriving DecidableEq

/-- `SessionStatus.value`: the lower-case string of each member. -/
def SessionStatus.value : SessionStatus → String
  | .initializing => "initializing"
  | .active => "active"
  | .paused => "paused"
  | .completing => "completing"
  | .completed => "completed"
  | .failed => "failed"
  | .timeout => "timeout"

/-- `SessionConfig` dataclass (typed view, as attribute access uses it). -/
structure SessionConfig where
  session_type : String
  timeout_minutes : Int := 60
  max_operations : Int := 1000
  auto_cleanup : Bool := true
  persist_state : Bool := true
  log_level : String := "INFO"
  resource_limits : List (String × PyVal) := []
  custom_settings : List (String × PyVal) := []

def pyToInt (v : Option PyVal) (dflt : Int) : Int :=
  match v with
  | some (.int n) => n
  | _ => dflt

def pyToBool (v : Option PyVal) (dflt : Bool) : Bool :=
  match v with
  | some (.bool b) => b
  | _ => dflt

def pyToStr (v : Option PyVal) (dflt : String) : String :=
  match v with
  | some (.str s) => s
  | _ => dflt

def pyToDict (v : Option PyVal) : List (String × PyVal) :=
  match v with
  | some (.dict d) => d
  | _ => []

/-- `SessionConfig(**config_dict)` on a resolved 8-key dict (the resolution
above always produces all eight keys, well typed for the inputs exercised
here; `__post_init__` turns a missing mapping into the empty dict). -/
def SessionConfig.ofDict (d : List (String × PyVal)) : SessionConfig :=
  { session_type := pyToStr (dictGet d "session_type") "default"
    timeout_minutes := pyToInt (dictGet d "timeout_minutes") 60
    max_operations := pyToInt (dictGet d "max_operations") 1000
    auto_cleanup := pyToBool (dictGet d "auto_cleanup") true
    persist_state := pyToBool (dictGet d "persist_state") true
    log_level := pyToStr (dictGet d "log_level") "INFO"
    resource_limits := pyToDict (dictGet d "resource_limits")
    custom_settings := pyToDict (dictGet d "custom_settings") }

/-- `asdict(config)`, to rebuild the dict stored inside `to_dict`. -/
def SessionConfig.toDict (c : SessionConfig) : List (String × PyVal) :=
  configDict c.session_type c.timeout_minutes c.max_operations c.auto_cleanup
    c.persist_state c.log_level c.resource_limits c.custom_settings

/-- `SessionMetrics` dataclass.  Counters are naturals; the two float fields
are modelled as integers (their values never matter to any claim). -/
structure SessionMetrics where
  operations_count : Nat := 0
  api_calls_count : Nat := 0
  files_processed : Nat := 0
  errors_count : Nat := 0
  warnings_count : Nat := 0
  bytes_processed : Nat := 0
  execution_time_seconds : Int := 0
  memory_usage_mb : Int := 0

/-- One entry of `operation_history`. -/
structure Operation where
  timestamp : Int
  type : String
  data : List (String × PyVal)
  operation_id : Nat

/-- One entry of `error_log`. -/
structure ErrorEntry where
  timestamp : Int
  type : String
  message : String
  data : List (String × PyVal)
  error_id : Nat

/-- The `Session` class state.  `open_connections` keeps only the handle
names (closable handles are opaque); a Python set is an insertion-ordered
duplicate-free list here. -/
structure Session where
  session_id : String
  session_type : String
  config : SessionConfig
  status : SessionStatus
  metrics : SessionMetrics
  created_at : Int
  started_at : Option Int
  completed_at : Option Int
  last_activity : Int
  state_data : List (String × PyVal)
  operation_history : List Operation
  error_log : List ErrorEntry
  allocated_resources : List String
  open_connections : List String
  temp_files : List String

/-- `set.add` (no duplicates). -/
def setAdd (l : List String) (x : String) : List String :=
  if x ∈ l then l else l ++ [x]

/-- `Session.__init__`. -/
def Session.make (sid ty : String) (config : SessionConfig) (now : Int) :
    Session :=
  { session_id := sid, session_type := ty, config := config
    status := .initializing, metrics := {}
    created_at := now, started_at := none, completed_at := none
    last_activity := now
    state_data := [], operation_history := [], error_log := []
    allocated_resources := [], open_connections := [], temp_files := [] }

/-- `Session.add_operation`: appends to the history, bumps
`operations_count`, refreshes `last_activity` (via `update_activity`). -/
def Session.add_operation (s : Session) (now : Int) (ty : String)
    (data : Option (List (String × PyVal))) : Session :=
  let op : Operation :=
    { timestamp := now, type := ty, data := data.getD []
      operation_id := s.operation_history.length + 1 }
  { s with operation_history := s.operation_history ++ [op]
           metrics := { s.metrics with
                        operations_count := s.metrics.operations_count + 1 }
           last_activity := now }

/-- `Session.add_error`: appends to the error log, bumps `errors_count`,
refreshes `last_activity`. -/
def Session.add_error (s : Session) (now : Int) (ty msg : String)
    (data : Option (List (String × PyVal))) : Session :=
  let e : ErrorEntry :=
    { timestamp := now, type := ty, message := msg, data := data.getD []
      error_id := s.error_log.length + 1 }
  { s with error_log := s.error_log ++ [e]
           metrics := { s.metrics with
                        errors_count := s.metrics.errors_count + 1 }
           last_activity := now }

/-- `Session.is_expired`.  Note the source whitelists only COMPLETED and
FAILED before the elapsed-time test.  `timedelta(minutes=t)` against
second-scale timestamps is `t * 60`. -/
def Session.is_expired (s : Session) (now : Int) : Bool :=
  if s.status = .completed ∨ s.status = .failed then false
  else decide (now - s.last_activity > s.config.timeout_minutes * 60)

/-- `Session.get_runtime_duration`. -/
def Session.get_runtime_duration (s : Session) (now : Int) : Int :=
  match s.started_at with
  | none => 0
  | some st => (s.completed_at.getD now) - st

/-- `Session.to_dict`: the JSON snapshot (timestamps as integers). -/
def Session.to_dict (s : Session) (now : Int) : List (String × PyVal) :=
  [("session_id", .str s.session_id),
   ("session_type", .str s.session_type),
   ("status", .str s.status.value),
   ("config", .dict s.config.toDict),
   ("metrics", .dict
      [("operations_count", .int s.metrics.operations_count),
       ("api_calls_count", .int s.metrics.api_calls_count),
       ("files_processed", .int s.metrics.files_processed),
       ("errors_count", .int s.metrics.errors_count),
       ("warnings_count", .int s.metrics.warnings_count),
       ("bytes_processed", .int s.metrics.bytes_processed),
       ("execution_time_seconds", .int s.metrics.execution_time_seconds),
       ("memory_usage_mb", .int s.metrics.memory_usage_mb)]),
   ("created_at", .int s.created_at),
   ("started_at", match s.started_at with
                  | some t => .int t
                  | none => .pynone),
   ("completed_at", match s.completed_at with
                    | some t => .int t
                    | none => .pynone),
   ("last_activity", .int s.last_activity),
   ("runtime_duration", .int (s.get_runtime_duration now)),
   ("is_expired", .bool (s.is_expired now)),
   ("operation_count", .int s.operation_history.length),
   ("error_count", .int s.error_log.length),
   ("allocated_resources", .list (s.allocated_resources.map PyVal.str)),
   ("state_keys", .list (s.state_data.map (fun p => PyVal.str p.1)))]

/-- Exceptions surfaced by the manager.  `notInitialized` and
`capacityExceeded` are the two `RuntimeError`s of `start_session`;
`notFound` and `invalidTransition` are the `ValueError`s (the latter names
the current status, as the message does); `injected k` stands for an
arbitrary exception raised by the statement numbered `k` (fault oracle). -/
inductive Err where
  | notInitialized
  | capacityExceeded : Nat → Err
  | notFound : String → Err
  | invalidTransition : String → String → Err
  | injected : Nat → Err
deriving DecidableEq

/-- The `SessionManager` state.  `persisted` models the `sessions/`
directory written by `_persist_session`: one JSON document per
`session_id`. -/
structure SessionManager where
  initialized : Bool
  sessions : List (String × Session)
  session_templates : List (String × List (String × PyVal))
  max_concurrent_sessions : Nat
  default_timeout_minutes : Nat
  cleanup_interval_minutes : Nat
  persistence_enabled : Bool
  total_sessions_created : Nat
  total_sessions_completed : Nat
  total_sessions_failed : Nat
  persisted : List (String × List (String × PyVal))

/-- `SessionManager.__init__` (which also loads the templates).  The
durable-storage model starts empty: it records exactly the writes this
manager performs. -/
def initialManager : SessionManager :=
  { initialized := false, sessions := []
    session_templates := sessionTemplates
    max_concurrent_sessions := 100, default_timeout_minutes := 60
    cleanup_interval_minutes := 10, persistence_enabled := true
    total_sessions_created := 0, total_sessions_completed := 0
    total_sessions_failed := 0, persisted := [] }

/-- `SessionManager.initialize`: `_load_persisted_sessions` only reads and
logs (it restores nothing), the two background tasks are modelled as the
step relation below, so the state change is the `initialized` flag. -/
def initializeManager (m : SessionManager) : SessionManager :=
  { m with initialized := true }

def setSession (m : SessionManager) (sid : String) (s : Session) :
    SessionManager :=
  { m with sessions := dictSet m.sessions sid s }

/-- `SessionManager._remove_session`. -/
def removeSession (m : SessionManager) (sid : String) : SessionManager :=
  if dictHasKey m.sessions sid then
    { m with sessions := dictRemove m.sessions sid }
  else m

/-- Does the fault oracle fire at statement `k`? -/
def faultHit (fault : Option Nat) (k : Nat) : Bool :=
  match fault with
  | some j => decide (j = k)
  | none => false

/-- `SessionManager._get_session_config` followed by
`SessionConfig(**config_dict)`. -/
def resolveConfig (m : SessionManager) (ty : String)
    (override : Option (List (String × PyVal))) : SessionConfig :=
  SessionConfig.ofDict (getSessionConfigDict m.session_templates ty override)

/-- `SessionManager._initialize_session`: tag allocation and per-type
`state_data` seeding, then the `logger_…` tag (the log level strings are
always non-empty, hence truthy). -/
def initialize_session (s : Session) : Session :=
  let s₁ := { s with allocated_resources :=
                setAdd (setAdd s.allocated_resources "memory") "logging" }
  let s₂ :=
    if s₁.session_type = "api_workflow" then
      { s₁ with allocated_resources := setAdd s₁.allocated_resources "api_pool"
                state_data := dictSet s₁.state_data "api_clients" (.dict []) }
    else if s₁.session_type = "file_processing" then
      { s₁ with allocated_resources :=
                  setAdd s₁.allocated_resources "file_handlers"
                state_data := dictSet (dictSet s₁.state_data "file_queue"
                  (.list [])) "processed_files" (.list []) }
    else if s₁.session_type = "batch_operation" then
      { s₁ with allocated_resources :=
                  setAdd s₁.allocated_resources "batch_processor"
                state_data := dictSet (dictSet s₁.state_data "batch_queue"
                  (.list [])) "batch_results" (.list []) }
    else s₁
  if s₂.config.log_level ≠ "" then
    { s₂ with allocated_resources :=
        setAdd s₂.allocated_resources ("logger_" ++ s₂.session_id) }
  else s₂

/-- The `except` handler of `start_session`: unregister the half-built
session if it was registered, then re-raise. -/
def startFail (m : SessionManager) (sid : String) (k : Nat) :
    SessionManager × Except Err String :=
  (removeSession m sid, .error (.injected k))

/-- `SessionManager.start_session`.  `sid` stands for the fresh
`uuid.uuid4()` value.  Statements of the `try` body are numbered for the
fault oracle: 0 `_get_session_config`, 1 `Session(...)` construction,
2 registration plus creation counter, 3 `_initialize_session`,
4 the activation block (status, `started_at`, `session_start` operation). -/
def start_session (m : SessionManager) (now : Int) (sid ty : String)
    (config : Option (List (String × PyVal))) (fault : Option Nat) :
    SessionManager × Except Err String :=
  if m.initialized = false then (m, .error .notInitialized)
  else if m.max_concurrent_sessions ≤ m.sessions.length then
    (m, .error (.capacityExceeded m.max_concurrent_sessions))
  else if faultHit fault 0 then startFail m sid 0
  else
    let cfg := resolveConfig m ty config
    if faultHit fault 1 then startFail m sid 1
    else
      let s₀ := Session.make sid ty cfg now
      if faultHit fault 2 then startFail m sid 2
      else
        let m₁ := { setSession m sid s₀ with
                    total_sessions_created := m.total_sessions_created + 1 }
        if faultHit fault 3 then startFail m₁ sid 3
        else
          let s₁ := initialize_session s₀
          let m₂ := setSession m₁ sid s₁
          if faultHit fault 4 then startFail m₂ sid 4
          else
            let s₂ := Session.add_operation
              { s₁ with status := .active, started_at := some now }
              now "session_start" (some [("session_type", .str ty)])
            (setSession m₂ sid s₂, .ok sid)

/-- `SessionManager.pause_session`. -/
def pause_session (m : SessionManager) (now : Int) (sid : String) :
    SessionManager × Except Err PyVal :=
  match dictGet m.sessions sid with
  | none => (m, .error (.notFound sid))
  | some s =>
      if s.status ≠ .active then
        (m, .error (.invalidTransition sid s.status.value))
      else
        let s₁ := Session.add_operation { s with status := .paused }
          now "session_pause" none
        (setSession m sid s₁,
         .ok (.dict [("session_id", .str sid), ("status", .str "paused"),
                     ("timestamp", .int now)]))

/-- `SessionManager.resume_session`. -/
def resume_session (m : SessionManager) (now : Int) (sid : String) :
    SessionManager × Except Err PyVal :=
  match dictGet m.sessions sid with
  | none => (m, .error (.notFound sid))
  | some s =>
      if s.status ≠ .paused then
        (m, .error (.invalidTransition sid s.status.value))
      else
        let s₁ := Session.add_operation { s with status := .active }
          now "session_resume" none
        (setSession m sid s₁,
         .ok (.dict [("session_id", .str sid), ("status", .str "active"),
                     ("timestamp", .int now)]))

/-- `SessionManager._cleanup_session`: best-effort teardown.  Every failure
inside it is swallowed by its own try/except blocks, so it never raises;
the net state change is that the three resource collections are cleared. -/
def cleanup_session (s : Session) : Session :=
  { s with open_connections := [], temp_files := [],
           allocated_resources := [] }

/-- `SessionManager._persist_session`: writes `session.to_dict()` to
`sessions/session_<session_id>.json`.  A failure (modelled by
`persistFault`) is swallowed: nothing is written, nothing is raised. -/
def persistSession (m : SessionManager) (s : Session) (now : Int)
    (persistFault : Bool) : SessionManager :=
  if persistFault then m
  else { m with persisted := dictSet m.persisted s.session_id (s.to_dict now) }

/-- `session.status = SessionStatus.COMPLETING`. -/
def markCompleting (s : Session) : Session := { s with status := .completing }

/-- `session.status = SessionStatus.COMPLETED`. -/
def markCompleted (s : Session) : Session := { s with status := .completed }

/-- `session.completed_at = datetime.now()`. -/
def stampCompletedAt (s : Session) (now : Int) : Session :=
  { s with completed_at := some now }

/-- `session.metrics.execution_time_seconds = session.get_runtime_duration()`. -/
def freezeDuration (s : Session) (now : Int) : Session :=
  { s with metrics := { s.metrics with
      execution_time_seconds := s.get_runtime_duration now } }

/-- `session.status = SessionStatus.TIMEOUT`. -/
def markTimeout (s : Session) : Session := { s with status := .timeout }

/-- The return dict of a successful `complete_session`. -/
def completionSummary (s : Session) (now : Int) : PyVal :=
  .dict [("session_id", .str s.session_id), ("status", .str "completed"),
         ("duration_seconds", .int s.metrics.execution_time_seconds),
         ("operations_count", .int s.metrics.operations_count),
         ("timestamp", .int now)]

/-- The `except` handler of `complete_session`: force FAILED on the session
object (still registered — removal is the last statement of the body),
record the exception via `add_error`, bump the lifetime failure counter,
re-raise. -/
def completeFail (m : SessionManager) (now : Int) (sid : String)
    (s : Session) (k : Nat) : SessionManager × Except Err PyVal :=
  let sF := Session.add_error { s with status := .failed } now
    "completion_error" ("exception at statement " ++ toString k) none
  ({ setSession m sid sF with
     total_sessions_failed := m.total_sessions_failed + 1 },
   .error (.injected k))

/-- The tail of the `complete_session` try body: the auto-cleanup branch
(grace delay, then `_remove_session`) and the return value.  `s` is the
current value of the in-place-mutated session object; it is written back
to the live collection at each exit (the collection is not read between
the mutations, so this is state-equivalent to the in-place updates). -/
def completeTail (m : SessionManager) (now : Int) (sid : String)
    (s : Session) (fault : Option Nat) : SessionManager × Except Err PyVal :=
  if s.config.auto_cleanup then
    if faultHit fault 8 then completeFail m now sid s 8
    else if faultHit fault 9 then completeFail m now sid s 9
    else (removeSession (setSession m sid s) sid,
          .ok (completionSummary s now))
  else (setSession m sid s, .ok (completionSummary s now))

/-- `SessionManager.complete_session`.  Statements of the `try` body, for
the fault oracle: 0 `status := COMPLETING`, 1 the `session_complete`
operation, 2 `_cleanup_session`, 3 `status := COMPLETED`,
4 `completed_at := now`, 5 freezing `execution_time_seconds`, 6 the
completion counter, 7 `_persist_session` (only when `persist_state`),
8 the grace `asyncio.sleep(1)` and 9 `_remove_session` (only when
`auto_cleanup`).  A fault numbered after the statements actually executed
means no exception occurred.  The in-place mutations of the session object
are threaded through `s₁ … s₆` and the object value is written back to the
live collection once at each exit (the body never reads the collection
between its statements, so the resulting states agree with the in-place
updates of the source). -/
def complete_session (m : SessionManager) (now : Int) (sid : String)
    (data : Option (List (String × PyVal))) (fault : Option Nat)
    (persistFault : Bool) : SessionManager × Except Err PyVal :=
  match dictGet m.sessions sid with
  | none => (m, .error (.notFound sid))
  | some s =>
      if faultHit fault 0 then completeFail m now sid s 0
      else
        let s₁ := markCompleting s
        if faultHit fault 1 then completeFail m now sid s₁ 1
        else
          let s₂ := Session.add_operation s₁ now "session_complete" data
          if faultHit fault 2 then completeFail m now sid s₂ 2
          else
            let s₃ := cleanup_session s₂
            if faultHit fault 3 then completeFail m now sid s₃ 3
            else
              let s₄ := markCompleted s₃
              if faultHit fault 4 then completeFail m now sid s₄ 4
              else
                let s₅ := stampCompletedAt s₄ now
                if faultHit fault 5 then completeFail m now sid s₅ 5
                else
                  let s₆ := freezeDuration s₅ now
                  if faultHit fault 6 then completeFail m now sid s₆ 6
                  else
                    let m₇ := { m with total_sessions_completed :=
                                  m.total_sessions_completed + 1 }
                    if s₆.config.persist_state then
                      if faultHit fault 7 then completeFail m₇ now sid s₆ 7
                      else
                        completeTail (persistSession m₇ s₆ now persistFault)
                          now sid s₆ fault
                    else completeTail m₇ now sid s₆ fault

/-- `SessionManager.get_session_status`.  With an id: the `to_dict`
snapshot or `NotFound`; without: the aggregate summary.  Read-only. -/
def get_session_status (m : SessionManager) (now : Int)
    (sid? : Option String) : Except Err PyVal :=
  match sid? with
  | some sid =>
      match dictGet m.sessions sid with
      | none => .error (.notFound sid)
      | some s => .ok (.dict (s.to_dict now))
  | none =>
      .ok (.dict
        [("total_sessions", .int m.sessions.length),
         ("active_sessions", .int
            (m.sessions.filter (fun p => p.2.status = .active)).length),
         ("completed_sessions", .int
            (m.sessions.filter (fun p => p.2.status = .completed)).length),
         ("failed_sessions", .int
            (m.sessions.filter (fun p => p.2.status = .failed)).length),
         ("session_details", .dict
            (m.sessions.map (fun p => (p.1, PyVal.dict (p.2.to_dict now)))))])

/-- One iteration of `_cleanup_expired_sessions` restricted to one session
of its expired list.  The source collects the expired ids, then handles
each inside its own try/except (a failure is logged and the sweep moves
on, leaving the partial mutations in place).  Statements, for the fault
oracle: 0 `status := TIMEOUT`, 1 the timeout `add_error`,
2 `_cleanup_session`, 3 `_remove_session`.  Note the sweep neither stamps
`completed_at` nor calls `_persist_session`.  As in `complete_session`,
the in-place object mutations are threaded through `s₁ … s₃` and written
back once at each exit. -/
def sweepSession (m : SessionManager) (now : Int) (sid : String)
    (fault : Option Nat) : SessionManager :=
  match dictGet m.sessions sid with
  | none => m
  | some s =>
      if s.is_expired now then
        if faultHit fault 0 then m
        else
          let s₁ := markTimeout s
          if faultHit fault 1 then setSession m sid s₁
          else
            let s₂ := Session.add_error s₁ now "timeout"
              "Session expired due to inactivity" none
            if faultHit fault 2 then setSession m sid s₂
            else
              let s₃ := cleanup_session s₂
              if faultHit fault 3 then setSession m sid s₃
              else removeSession (setSession m sid s₃) sid
      else m

/-- The states reachable by manager operations and background-sweep steps,
from the freshly constructed manager, with arbitrary call arguments and
arbitrary fault-oracle outcomes.  Failed calls contribute their post-state
too. -/
inductive Reachable : SessionManager → Prop where
  | base : Reachable initialManager
  | init {m} : Reachable m → Reachable (initializeManager m)
  | start {m} (now : Int) (sid ty : String)
      (cfg : Option (List (String × PyVal))) (fault : Option Nat) :
      Reachable m → Reachable (start_session m now sid ty cfg fault).1
  | pause {m} (now : Int) (sid : String) :
      Reachable m → Reachable (pause_session m now sid).1
  | resume {m} (now : Int) (sid : String) :
      Reachable m → Reachable (resume_session m now sid).1
  | complete {m} (now : Int) (sid : String)
      (data : Option (List (String × PyVal))) (fault : Option Nat)
      (persistFault : Bool) :
      Reachable m → Reachable (complete_session m now sid data fault persistFault).1
  | sweep {m} (now : Int) (sid : String) (fault : Option Nat) :
      Reachable m → Reachable (sweepSession m now sid fault)

theorem dictGet_mem {α : Type} {d : List (String × α)} {k : String} {v : α}
    (h : dictGet d k = some v) : (k, v) ∈ d := by
  induction d with
  | nil => simp [dictGet] at h
  | cons p t ih =>
      obtain ⟨k₁, v₁⟩ := p
      rw [dictGet] at h
      split at h
      · next heq =>
          injection h with h₂
          subst heq
          subst h₂
          exact List.mem_cons_self _ _
      · exact List.mem_cons_of_mem _ (ih h)

theorem mem_dictSet {α : Type} {d : List (String × α)} {k : String} {v : α}
    {p : String × α} (h : p ∈ dictSet d k v) : p = (k, v) ∨ p ∈ d := by
  induction d with
  | nil => simpa [dictSet] using h
  | cons q t ih =>
      obtain ⟨k₁, v₁⟩ := q
      simp only [dictSet] at h
      by_cases hk : k₁ = k
      · rw [if_pos hk] at h
        rcases List.mem_cons.mp h with h₁ | h₁
        · exact Or.inl h₁
        · exact Or.inr (List.mem_cons_of_mem _ h₁)
      · rw [if_neg hk] at h
        rcases List.mem_cons.mp h with h₁ | h₁
        · exact Or.inr (h₁ ▸ List.mem_cons_self _ _)
        · rcases ih h₁ with h₂ | h₂
          · exact Or.inl h₂
          · exact Or.inr (List.mem_cons_of_mem _ h₂)

theorem mem_dictRemove {α : Type} {d : List (String × α)} {k : String}
    {p : String × α} (h : p ∈ dictRemove d k) : p ∈ d := by
  induction d with
  | nil => simpa [dictRemove] using h
  | cons q t ih =>
      obtain ⟨k₁, v₁⟩ := q
      simp only [dictRemove] at h
      by_cases hk : k₁ = k
      · rw [if_pos hk] at h
        exact List.mem_cons_of_mem _ h
      · rw [if_neg hk] at h
        rcases List.mem_cons.mp h with h₁ | h₁
        · exact h₁ ▸ List.mem_cons_self _ _
        · exact List.mem_cons_of_mem _ (ih h₁)

theorem mem_dictRemove_dictSet {α : Type} {d : List (String × α)} {k : String}
    {v : α} {p : String × α} (h : p ∈ dictRemove (dictSet d k v) k) : p ∈ d := by
  induction d with
  | nil => simp [dictSet, dictRemove] at h
  | cons q t ih =>
      obtain ⟨k₁, v₁⟩ := q
      by_cases hk : k₁ = k
      · simp only [dictSet, if_pos hk, dictRemove, if_pos (rfl : k = k)] at h
        exact List.mem_cons_of_mem _ h
      · simp only [dictSet, if_neg hk, dictRemove, if_neg hk] at h
        rcases List.mem_cons.mp h with h₁ | h₁
        · exact h₁ ▸ List.mem_cons_self _ _
        · exact List.mem_cons_of_mem _ (ih h₁)

theorem dictGet_dictSet_self {α : Type} (d : List (String × α)) (k : String)
    (v : α) : dictGet (dictSet d k v) k = some v := by
  induction d with
  | nil => simp [dictSet, dictGet]
  | cons q t ih =>
      obtain ⟨k₁, v₁⟩ := q
      by_cases hk : k₁ = k
      · simp [dictSet, if_pos hk, dictGet]
      · simp [dictSet, if_neg hk, dictGet, hk, ih]

theorem dictSet_dictSet {α : Type} (d : List (String × α)) (k : String)
    (v w : α) : dictSet (dictSet d k v) k w = dictSet d k w := by
  induction d with
  | nil => simp [dictSet]
  | cons q t ih =>
      obtain ⟨k₁, v₁⟩ := q
      by_cases hk : k₁ = k
      · simp [dictSet, if_pos hk]
      · simp [dictSet, if_neg hk, ih]

theorem dictRemove_dictSet_of_none {α : Type} {d : List (String × α)}
    {k : String} (h : dictGet d k = none) (v : α) :
    dictRemove (dictSet d k v) k = d := by
  induction d with
  | nil => simp [dictSet, dictRemove]
  | cons q t ih =>
      obtain ⟨k₁, v₁⟩ := q
      simp only [dictGet] at h
      by_cases hk : k₁ = k
      · rw [if_pos hk] at h
        exact absurd h (by simp)
      · rw [if_neg hk] at h
        simp [dictSet, if_neg hk, dictRemove, hk, ih h]

/-- The per-session invariant on every reachable manager state:
no registered session is in INITIALIZING, `completed_at` is only ever
stamped on the successful completion path (so a non-null `completed_at`
means COMPLETED or FAILED), every COMPLETED session carries it, and no
TIMEOUT session does. -/
def SessionOK (s : Session) : Prop :=
  s.status ≠ .initializing ∧
  (s.completed_at ≠ none → s.status = .completed ∨ s.status = .failed) ∧
  (s.status = .completed → s.completed_at ≠ none) ∧
  (s.status = .timeout → s.completed_at = none)

def Inv (m : SessionManager) : Prop :=
  ∀ p ∈ m.sessions, SessionOK p.2

theorem sessionsOK_set {d : List (String × Session)} {k : String} {v : Session}
    (hd : ∀ p ∈ d, SessionOK p.2) (hv : SessionOK v) :
    ∀ p ∈ dictSet d k v, SessionOK p.2 := by
  intro p hp
  rcases mem_dictSet hp with h | h
  · rw [h]; exact hv
  · exact hd p h

theorem sessionsOK_remove {d : List (String × Session)} {k : String}
    (hd : ∀ p ∈ d, SessionOK p.2) :
    ∀ p ∈ dictRemove d k, SessionOK p.2 :=
  fun p hp => hd p (mem_dictRemove hp)

theorem persistSession_sessions (m : SessionManager) (s : Session) (now : Int)
    (b : Bool) : (persistSession m s now b).sessions = m.sessions := by
  unfold persistSession
  split <;> rfl

theorem initialize_session_status (s : Session) :
    (initialize_session s).status = s.status := by
  simp only [initialize_session]
  repeat' split
  all_goals rfl

theorem initialize_session_completed_at (s : Session) :
    (initialize_session s).completed_at = s.completed_at := by
  simp only [initialize_session]
  repeat' split
  all_goals rfl

theorem sessionOK_failed (s : Session) (now : Int) (ty msg : String)
    (d : Option (List (String × PyVal))) :
    SessionOK (Session.add_error { s with status := SessionStatus.failed }
      now ty msg d) := by
  refine ⟨by simp [Session.add_error], fun _ => Or.inr (by simp [Session.add_error]),
    fun hc => ?_, fun hc => ?_⟩ <;>
    simp [Session.add_error] at hc

theorem sessionOK_of_completed {s : Session}
    (hst : s.status = SessionStatus.completed) (hca : s.completed_at ≠ none) :
    SessionOK s := by
  refine ⟨by simp [hst], fun _ => Or.inl hst, fun _ => hca, fun hc => ?_⟩
  rw [hst] at hc
  cases hc

theorem sessionOK_of_timeout {s : Session}
    (hst : s.status = SessionStatus.timeout) (hca : s.completed_at = none) :
    SessionOK s := by
  refine ⟨by simp [hst], fun hne => (hne hca).elim, fun hc => ?_, fun _ => hca⟩
  rw [hst] at hc
  cases hc

theorem inv_removeSession {m : SessionManager} (h : Inv m) (sid : String) :
    Inv (removeSession m sid) := by
  unfold removeSession
  split
  · exact fun p hp => h p (mem_dictRemove hp)
  · exact h

theorem inv_initializeManager {m : SessionManager} (h : Inv m) :
    Inv (initializeManager m) := h

theorem inv_initialManager : Inv initialManager := by
  intro p hp
  simp [initialManager] at hp

theorem active_completed_at_none {s : Session} (hs : SessionOK s)
    (hst : s.status = SessionStatus.active) : s.completed_at = none := by
  by_contra hne
  rcases hs.2.1 hne with h₁ | h₁ <;> rw [hst] at h₁ <;> cases h₁

theorem paused_completed_at_none {s : Session} (hs : SessionOK s)
    (hst : s.status = SessionStatus.paused) : s.completed_at = none := by
  by_contra hne
  rcases hs.2.1 hne with h₁ | h₁ <;> rw [hst] at h₁ <;> cases h₁

theorem inv_pause {m : SessionManager} (h : Inv m) (now : Int) (sid : String) :
    Inv (pause_session m now sid).1 := by
  unfold pause_session
  split
  · exact h
  · next s hget =>
      split
      · exact h
      · next hst =>
          have hact : s.status = SessionStatus.active := not_not.mp hst
          have hnone := active_completed_at_none (h _ (dictGet_mem hget)) hact
          intro p hp
          rcases mem_dictSet hp with rfl | hp₂
          · refine ⟨by simp [Session.add_operation], fun hne => (hne ?_).elim,
              fun hc => ?_, fun hc => ?_⟩
            · simpa [Session.add_operation] using hnone
            · simp [Session.add_operation] at hc
            · simp [Session.add_operation] at hc
          · exact h p hp₂

theorem inv_resume {m : SessionManager} (h : Inv m) (now : Int) (sid : String) :
    Inv (resume_session m now sid).1 := by
  unfold resume_session
  split
  · exact h
  · next s hget =>
      split
      · exact h
      · next hst =>
          have hpa : s.status = SessionStatus.paused := not_not.mp hst
          have hnone := paused_completed_at_none (h _ (dictGet_mem hget)) hpa
          intro p hp
          rcases mem_dictSet hp with rfl | hp₂
          · refine ⟨by simp [Session.add_operation], fun hne => (hne ?_).elim,
              fun hc => ?_, fun hc => ?_⟩
            · simpa [Session.add_operation] using hnone
            · simp [Session.add_operation] at hc
            · simp [Session.add_operation] at hc
          · exact h p hp₂

theorem inv_start {m : SessionManager} (h : Inv m) (now : Int) (sid ty : String)
    (cfg : Option (List (String × PyVal))) (fault : Option Nat) :
    Inv (start_session m now sid ty cfg fault).1 := by
  unfold start_session startFail
  repeat' split
  any_goals exact h
  any_goals exact inv_removeSession h sid
  all_goals intro p hp
  all_goals simp only [setSession, removeSession, dictHasKey,
    dictGet_dictSet_self, Option.isSome_some, if_true, dictSet_dictSet] at hp
  all_goals
    first
    | exact h p (mem_dictRemove_dictSet hp)
    | (rcases mem_dictSet hp with rfl | hp₂
       · refine ⟨by simp [Session.add_operation], fun hne => (hne ?_).elim,
           fun hc => ?_, fun hc => ?_⟩
         · simp [Session.add_operation, initialize_session_completed_at,
             Session.make]
         · simp [Session.add_operation] at hc
         · simp [Session.add_operation] at hc
       · exact h p hp₂)

theorem inv_setSession_over {m₁ m : SessionManager}
    (hses : m₁.sessions = m.sessions) (h : Inv m) (sid : String) {s : Session}
    (hs : SessionOK s) : Inv (setSession m₁ sid s) := by
  intro p hp
  simp only [setSession] at hp
  rw [hses] at hp
  exact sessionsOK_set h hs p hp

theorem inv_remove_setSession_over {m₁ m : SessionManager}
    (hses : m₁.sessions = m.sessions) (h : Inv m) (sid : String) (s : Session) :
    Inv (removeSession (setSession m₁ sid s) sid) := by
  intro p hp
  simp only [removeSession, setSession, dictHasKey, dictGet_dictSet_self,
    Option.isSome_some, if_true] at hp
  exact h p (hses ▸ mem_dictRemove_dictSet hp)

theorem inv_completeFail {m₁ m : SessionManager}
    (hses : m₁.sessions = m.sessions) (h : Inv m) (now : Int) (sid : String)
    (s : Session) (k : Nat) : Inv (completeFail m₁ now sid s k).1 :=
  inv_setSession_over hses h sid (sessionOK_failed s now _ _ none)

theorem bump_sessions (m : SessionManager) :
    (SessionManager.sessions { m with total_sessions_completed :=
        m.total_sessions_completed + 1 }) = m.sessions := rfl

theorem persist_bump_sessions (m : SessionManager) (s : Session) (now : Int)
    (b : Bool) :
    (persistSession { m with total_sessions_completed :=
        m.total_sessions_completed + 1 } s now b).sessions = m.sessions := by
  rw [persistSession_sessions]

theorem inv_completeTail {m₁ m : SessionManager}
    (hses : m₁.sessions = m.sessions) (h : Inv m) (now : Int) (sid : String)
    {s : Session} (hs : SessionOK s) (fault : Option Nat) :
    Inv (completeTail m₁ now sid s fault).1 := by
  unfold completeTail
  repeat' split
  any_goals exact inv_completeFail hses h now sid _ _
  any_goals exact inv_remove_setSession_over hses h sid _
  all_goals exact inv_setSession_over hses h sid hs

theorem inv_complete {m : SessionManager} (h : Inv m) (now : Int) (sid : String)
    (data : Option (List (String × PyVal))) (fault : Option Nat) (pF : Bool) :
    Inv (complete_session m now sid data fault pF).1 := by
  simp only [complete_session]
  repeat' split
  any_goals exact h
  any_goals exact inv_completeFail (rfl : m.sessions = m.sessions) h now sid _ _
  any_goals
    exact inv_completeTail (bump_sessions m) h now sid
      (sessionOK_of_completed rfl (Option.some_ne_none now)) fault
  all_goals
    exact inv_completeTail (persist_bump_sessions m _ now pF) h now sid
      (sessionOK_of_completed rfl (Option.some_ne_none now)) fault

theorem inv_sweep {m : SessionManager} (h : Inv m) (now : Int) (sid : String)
    (fault : Option Nat) : Inv (sweepSession m now sid fault) := by
  simp only [sweepSession]
  split
  · exact h
  · next s hget =>
      split
      · next hexp =>
          have hs := h _ (dictGet_mem hget)
          have hnone : s.completed_at = none := by
            by_contra hne
            have hterm := hs.2.1 hne
            have hfalse : s.is_expired now = false := by
              unfold Session.is_expired
              rw [if_pos hterm]
            rw [hfalse] at hexp
            exact Bool.noConfusion hexp
          repeat' split
          any_goals exact h
          any_goals
            exact inv_remove_setSession_over (rfl : m.sessions = m.sessions)
              h sid _
          all_goals
            exact inv_setSession_over (rfl : m.sessions = m.sessions) h sid
              (sessionOK_of_timeout rfl hnone)
      · exact h

/-- Every reachable manager state satisfies the per-session invariant. -/
theorem reachable_inv {m : SessionManager} (h : Reachable m) : Inv m := by
  induction h with
  | base => exact inv_initialManager
  | init _ ih => exact inv_initializeManager ih
  | start now sid ty cfg fault _ ih => exact inv_start ih now sid ty cfg fault
  | pause now sid _ ih => exact inv_pause ih now sid
  | resume now sid _ ih => exact inv_resume ih now sid
  | complete now sid data fault pF _ ih => exact inv_complete ih now sid data fault pF
  | sweep now sid fault _ ih => exact inv_sweep ih now sid fault

/-- Boolean check that no registered session has status INITIALIZING. -/
def no_initializing (l : List (String × Session)) : Bool :=
  l.all (fun p => decide (p.2.status ≠ SessionStatus.initializing))

theorem no_initializing_of_inv {m : SessionManager} (h : Inv m) :
    no_initializing m.sessions = true := by
  unfold no_initializing
  rw [List.all_eq_true]
  intro p hp
  exact decide_eq_true (h p hp).1

/-- The manager with its `initialized` flag overwritten (used to state that
an operation ignores the flag). -/
def withInit (m : SessionManager) (b : Bool) : SessionManager :=
  { m with initialized := b }

/-- A caller-driven mutation of one session: `add_operation` or
`add_error`, with its timestamp and payload. -/
inductive TouchAct where
  | op : Int → String → Option (List (String × PyVal)) → TouchAct
  | err : Int → String → String → Option (List (String × PyVal)) → TouchAct

def applyTouch (s : Session) (a : TouchAct) : Session :=
  match a with
  | .op now ty d => s.add_operation now ty d
  | .err now ty msg d => s.add_error now ty msg d

def applyTouches (s : Session) (acts : List TouchAct) : Session :=
  acts.foldl applyTouch s

theorem applyTouch_mono (s : Session) (a : TouchAct) :
    s.metrics.operations_count ≤ (applyTouch s a).metrics.operations_count ∧
    s.metrics.errors_count ≤ (applyTouch s a).metrics.errors_count ∧
    s.metrics.bytes_processed ≤ (applyTouch s a).metrics.bytes_processed := by
  cases a <;>
    simp [applyTouch, Session.add_operation, Session.add_error, Nat.le_succ]

theorem applyTouches_mono (s : Session) (acts : List TouchAct) :
    s.metrics.operations_count ≤ (applyTouches s acts).metrics.operations_count ∧
    s.metrics.errors_count ≤ (applyTouches s acts).metrics.errors_count ∧
    s.metrics.bytes_processed ≤ (applyTouches s acts).metrics.bytes_processed := by
  induction acts generalizing s with
  | nil => exact ⟨le_rfl, le_rfl, le_rfl⟩
  | cons a t ih =>
      have h₁ := applyTouch_mono s a
      have h₂ := ih (applyTouch s a)
      exact ⟨le_trans h₁.1 h₂.1, le_trans h₁.2.1 h₂.2.1,
             le_trans h₁.2.2 h₂.2.2⟩

/-- The manager right after `initialize()`. -/
def mInit : SessionManager := initializeManager initialManager

/-- `mInit` after starting a `development` session (auto_cleanup = false,
persist_state = true) with id `sid1` at time 0. -/
def mDev : SessionManager :=
  (start_session mInit 0 "sid1" "development" none none).1

/-- `mDev` after a `complete_session("sid1")` whose body raised at its
first statement: the session is forced to FAILED and stays registered. -/
def mDevFailed : SessionManager :=
  (complete_session mDev 1 "sid1" none (some 0) false).1

/-- A fallback value for `Option.getD` on session lookups. -/
def fallbackSession : Session :=
  Session.make "none" "default" { session_type := "default" } 0

/-- The FAILED session left in `mDevFailed`. -/
def sFailed : Session :=
  (dictGet mDevFailed.sessions "sid1").getD fallbackSession

/-- The ACTIVE session registered in `mDev`. -/
def sActive : Session :=
  (dictGet mDev.sessions "sid1").getD fallbackSession

/-- `mInit` after starting a `default` session (persist_state = true,
timeout 60 minutes) with id `sidA` at time 0. -/
def mDefault : SessionManager :=
  (start_session mInit 0 "sidA" "default" none none).1

/-- A sweep step at time 4000 s (past the 3600 s timeout) that raised just
before `_cleanup_session`: the session is left marked TIMEOUT. -/
def mSweepMark : SessionManager := sweepSession mDefault 4000 "sidA" (some 2)

/-- The same sweep step without any fault: the session is torn down and
removed. -/
def mSweepDone : SessionManager := sweepSession mDefault 4000 "sidA" none

/-- The session of `mDefault` as left in `mSweepMark`. -/
def sMarked : Session :=
  (dictGet mSweepMark.sessions "sidA").getD fallbackSession

/-- The session registered in `mDefault`. -/
def sDefault : Session :=
  (dictGet mDefault.sessions "sidA").getD fallbackSession

/-- A 100-session manager (the configured ceiling), for the capacity
witness. -/
def fullSessions : List (String × Session) :=
  (List.range 100).map
    (fun i => (toString i,
      Session.make (toString i) "default" { session_type := "default" } 0))

def fullManager : SessionManager := { mInit with sessions := fullSessions }

/-- A concrete TIMEOUT session whose last activity is long past. -/
def timeoutSession : Session :=
  { Session.make "t" "default" { session_type := "default" } 0 with
    status := .timeout }

/-- A concrete COMPLETED session whose last activity is long past. -/
def completedSession : Session :=
  { Session.make "c" "default" { session_type := "default" } 0 with
    status := .completed, completed_at := some 1 }

/-- C1: evaluating `_get_session_config` at the failing input
`resolve("api_workflow", {"resource_limits": {"x": 1}})`.  The claim (and
the spec) say the mapping fields are merged, so the result should retain
the template key `max_concurrent_api_calls`; the code replaces the mapping
wholesale because the merging `elif` branch is dead (every override key it
tests for is always present in `config_dict`), so the template key is
lost.  The second conjunct records what the template originally held. -/
theorem c1_override_replaces_resource_limits :
    dictGet (getSessionConfigDict sessionTemplates "api_workflow"
        (some [("resource_limits", PyVal.dict [("x", PyVal.int 1)])]))
      "resource_limits" = some (PyVal.dict [("x", PyVal.int 1)]) ∧
    dictGet ((dictGet sessionTemplates "api_workflow").getD [])
      "resource_limits" =
      some (PyVal.dict [("max_concurrent_api_calls", PyVal.int 10)]) :=
  ⟨rfl, rfl⟩

/-- C4 counterexample: a session in the terminal status TIMEOUT whose last
activity is long past is still reported expired by `is_expired` — the
source whitelists only COMPLETED and FAILED, so the claim fails for
TIMEOUT. -/
theorem c4_counterexample :
    timeoutSession.status = SessionStatus.timeout ∧
    Session.is_expired timeoutSession 999999 = true :=
  ⟨rfl, rfl⟩

/-- C4 amended: `is_expired` returns false for COMPLETED and FAILED
sessions regardless of elapsed time; a TIMEOUT session remains subject to
the elapsed-time test. -/
theorem c4_is_expired_terminal (s : Session) (now : Int)
    (h : s.status = SessionStatus.completed ∨ s.status = SessionStatus.failed) :
    s.is_expired now = false := by
  unfold Session.is_expired
  rw [if_pos h]

/-- C4 witness: the amended theorem applied to a concrete COMPLETED
session long past its timeout. -/
theorem c4_witness :
    (completedSession.status = SessionStatus.completed ∨
     completedSession.status = SessionStatus.failed) ∧
    Session.is_expired completedSession 999999 = false :=
  ⟨Or.inl rfl, c4_is_expired_terminal completedSession 999999 (Or.inl rfl)⟩

/-- C5: once the live collection has reached the configured ceiling, the
next `start_session` fails with the capacity error before any allocation,
and the post-state is exactly the input state (same sessions, counters,
storage).  (`initialized = true` holds on every state that can actually be
at capacity, since sessions can only be registered after `initialize`.) -/
theorem c5_capacity_enforcement (m : SessionManager) (now : Int)
    (sid ty : String) (cfg : Option (List (String × PyVal)))
    (fault : Option Nat) (hinit : m.initialized = true)
    (hfull : m.max_concurrent_sessions ≤ m.sessions.length) :
    start_session m now sid ty cfg fault =
      (m, .error (.capacityExceeded m.max_concurrent_sessions)) := by
  unfold start_session
  rw [hinit, if_neg (by simp), if_pos hfull]

/-- C5 witness: the theorem applied to a concrete manager holding 100
sessions (the configured maximum). -/
theorem c5_witness :
    fullManager.initialized = true ∧
    fullManager.max_concurrent_sessions ≤ fullManager.sessions.length ∧
    start_session fullManager 0 "fresh" "default" none none =
      (fullManager, .error (.capacityExceeded
        fullManager.max_concurrent_sessions)) :=
  ⟨rfl, by decide,
   c5_capacity_enforcement fullManager 0 "fresh" "default" none none rfl
     (by decide)⟩

/-- C9: `add_operation` bumps `operations_count` by exactly one and leaves
`errors_count` and `bytes_processed` unchanged; `add_error` bumps
`errors_count` by exactly one and leaves the other two unchanged; and over
any sequence of such calls the three counters never decrease. -/
theorem c9_metrics_monotonic (s : Session) (now : Int) (ty msg : String)
    (d : Option (List (String × PyVal))) (acts : List TouchAct) :
    (s.add_operation now ty d).metrics.operations_count =
      s.metrics.operations_count + 1 ∧
    (s.add_operation now ty d).metrics.errors_count =
      s.metrics.errors_count ∧
    (s.add_operation now ty d).metrics.bytes_processed =
      s.metrics.bytes_processed ∧
    (s.add_error now ty msg d).metrics.errors_count =
      s.metrics.errors_count + 1 ∧
    (s.add_error now ty msg d).metrics.operations_count =
      s.metrics.operations_count ∧
    (s.add_error now ty msg d).metrics.bytes_processed =
      s.metrics.bytes_processed ∧
    s.metrics.operations_count ≤
      (applyTouches s acts).metrics.operations_count ∧
    s.metrics.errors_count ≤ (applyTouches s acts).metrics.errors_count ∧
    s.metrics.bytes_processed ≤
      (applyTouches s acts).metrics.bytes_processed := by
  refine ⟨rfl, rfl, rfl, rfl, rfl, rfl, ?_, ?_, ?_⟩
  · exact (applyTouches_mono s acts).1
  · exact (applyTouches_mono s acts).2.1
  · exact (applyTouches_mono s acts).2.2

/-- C2 counterexample: in a reachable state holding a FAILED session that
is still registered, `complete_session` does not fail — it succeeds and
drives the terminal session back to COMPLETED, because the source performs
no status check before completing. -/
theorem c2_counterexample :
    Reachable mDevFailed ∧
    (dictGet mDevFailed.sessions "sid1").map Session.status =
      some SessionStatus.failed ∧
    (complete_session mDevFailed 2 "sid1" none none false).2.isOk = true ∧
    (dictGet (complete_session mDevFailed 2 "sid1" none none
        false).1.sessions "sid1").map Session.status =
      some SessionStatus.completed := by
  refine ⟨?_, rfl, rfl, rfl⟩
  exact Reachable.complete 1 "sid1" none (some 0) false
    (Reachable.start 0 "sid1" "development" none none
      (Reachable.init Reachable.base))

/-- C2 amended: for a registered session in a terminal status (COMPLETED,
FAILED or TIMEOUT), `pause_session` and `resume_session` fail with the
invalid-transition error naming the current status and leave the state
unchanged; `complete_session`, however, performs no status check and will
re-run completion on the terminal session (see the counterexample). -/
theorem c2_terminal_pause_resume_reject (m : SessionManager) (now : Int)
    (sid : String) (s : Session) (hget : dictGet m.sessions sid = some s)
    (hterm : s.status = SessionStatus.completed ∨
      s.status = SessionStatus.failed ∨ s.status = SessionStatus.timeout) :
    pause_session m now sid =
      (m, .error (.invalidTransition sid s.status.value)) ∧
    resume_session m now sid =
      (m, .error (.invalidTransition sid s.status.value)) := by
  have hna : s.status ≠ SessionStatus.active := by
    rcases hterm with h | h | h <;> rw [h] <;> simp
  have hnp : s.status ≠ SessionStatus.paused := by
    rcases hterm with h | h | h <;> rw [h] <;> simp
  constructor
  · unfold pause_session
    rw [hget]
    simp only [if_pos hna]
  · unfold resume_session
    rw [hget]
    simp only [if_pos hnp]

/-- C2 witness: the amended theorem applied to the concrete FAILED session
of `mDevFailed`. -/
theorem c2_witness :
    dictGet mDevFailed.sessions "sid1" = some sFailed ∧
    (sFailed.status = SessionStatus.completed ∨
     sFailed.status = SessionStatus.failed ∨
     sFailed.status = SessionStatus.timeout) ∧
    (pause_session mDevFailed 5 "sid1" =
       (mDevFailed, .error (.invalidTransition "sid1" sFailed.status.value)) ∧
     resume_session mDevFailed 5 "sid1" =
       (mDevFailed, .error (.invalidTransition "sid1" sFailed.status.value))) :=
  ⟨rfl, Or.inr (Or.inl rfl),
   c2_terminal_pause_resume_reject mDevFailed 5 "sid1" sFailed rfl
     (Or.inr (Or.inl rfl))⟩

/-- C3 counterexample: a reachable state (a `complete_session` whose body
raised at its first statement) holds a session whose status is the
terminal FAILED while `completed_at` is still null — the biconditional
"completed_at set iff terminal" fails, because neither the exception
handler of `complete_session` nor the expiry sweep ever stamps
`completed_at`. -/
theorem c3_counterexample :
    Reachable mDevFailed ∧
    (dictGet mDevFailed.sessions "sid1").map
        (fun s => (s.status, s.completed_at)) =
      some (SessionStatus.failed, none) := by
  refine ⟨?_, rfl⟩
  exact Reachable.complete 1 "sid1" none (some 0) false
    (Reachable.start 0 "sid1" "development" none none
      (Reachable.init Reachable.base))

/-- C3 amended: in every reachable state, a session's `completed_at` is
non-null only if its status is COMPLETED or FAILED, it is always non-null
when COMPLETED, and it is always null when TIMEOUT (the sweep never stamps
it; FAILED sessions carry it only when the completion body raised after
the stamp). -/
theorem c3_completed_at_invariant (m : SessionManager) (sid : String)
    (s : Session) (hr : Reachable m)
    (hget : dictGet m.sessions sid = some s) :
    (s.completed_at ≠ none →
      s.status = SessionStatus.completed ∨ s.status = SessionStatus.failed) ∧
    (s.status = SessionStatus.completed → s.completed_at ≠ none) ∧
    (s.status = SessionStatus.timeout → s.completed_at = none) := by
  have hs := reachable_inv hr _ (dictGet_mem hget)
  exact ⟨hs.2.1, hs.2.2.1, hs.2.2.2⟩

/-- C3 witness: the amended invariant applied to the concrete reachable
state `mDev` and its registered session. -/
theorem c3_witness :
    Reachable mDev ∧ dictGet mDev.sessions "sid1" = some sActive ∧
    ((sActive.completed_at ≠ none →
       sActive.status = SessionStatus.completed ∨
       sActive.status = SessionStatus.failed) ∧
     (sActive.status = SessionStatus.completed →
       sActive.completed_at ≠ none) ∧
     (sActive.status = SessionStatus.timeout →
       sActive.completed_at = none)) :=
  ⟨Reachable.start 0 "sid1" "development" none none
     (Reachable.init Reachable.base), rfl,
   c3_completed_at_invariant mDev "sid1" sActive
     (Reachable.start 0 "sid1" "development" none none
       (Reachable.init Reachable.base)) rfl⟩

theorem faultHit_none (k : Nat) : faultHit none k = false := rfl

theorem removeSession_persisted (m : SessionManager) (sid : String) :
    (removeSession m sid).persisted = m.persisted := by
  unfold removeSession
  split <;> rfl

theorem markCompleting_config (s : Session) :
    (markCompleting s).config = s.config := rfl

theorem add_operation_config (s : Session) (now : Int) (ty : String)
    (d : Option (List (String × PyVal))) :
    (s.add_operation now ty d).config = s.config := rfl

theorem cleanup_session_config (s : Session) :
    (cleanup_session s).config = s.config := rfl

theorem markCompleted_config (s : Session) :
    (markCompleted s).config = s.config := rfl

theorem stampCompletedAt_config (s : Session) (now : Int) :
    (stampCompletedAt s now).config = s.config := rfl

theorem freezeDuration_config (s : Session) (now : Int) :
    (freezeDuration s now).config = s.config := rfl

/-- C8 counterexample: the expiry sweep drives a `persist_state = true`
session (the `default` template) to the terminal TIMEOUT state, yet
durable storage stays empty — `_cleanup_expired_sessions` never calls
`_persist_session`, so only `complete_session` writes snapshots.  The
first reachable state shows the session marked TIMEOUT mid-sweep; the
second shows the completed sweep with the session removed and storage
still empty. -/
theorem c8_counterexample :
    Reachable mSweepMark ∧
    (dictGet mSweepMark.sessions "sidA").map
        (fun s => (s.status, s.config.persist_state)) =
      some (SessionStatus.timeout, true) ∧
    mSweepMark.persisted = [] ∧
    Reachable mSweepDone ∧
    mSweepDone.sessions = [] ∧
    mSweepDone.persisted = [] := by
  refine ⟨?_, rfl, rfl, ?_, rfl, rfl⟩
  · exact Reachable.sweep 4000 "sidA" (some 2)
      (Reachable.start 0 "sidA" "default" none none
        (Reachable.init Reachable.base))
  · exact Reachable.sweep 4000 "sidA" none
      (Reachable.start 0 "sidA" "default" none none
        (Reachable.init Reachable.base))

/-- C8 amended: a snapshot is written only by the success path of
`complete_session`: completing a registered `persist_state = true` session
without faults succeeds and stores, under the session id, the `to_dict`
snapshot (the same shape the single-session status query returns) of the
completed session; timed-out sessions swept by the background task are
never persisted (see the counterexample). -/
theorem c8_persist_on_complete (m : SessionManager) (now : Int)
    (sid : String) (data : Option (List (String × PyVal))) (s : Session)
    (hget : dictGet m.sessions sid = some s)
    (hps : s.config.persist_state = true) :
    ∃ m' v, complete_session m now sid data none false = (m', Except.ok v) ∧
      ∃ sF : Session, dictGet m'.persisted s.session_id = some (sF.to_dict now) ∧
        sF.status = SessionStatus.completed ∧ sF.completed_at = some now := by
  simp only [complete_session, completeTail, hget, faultHit_none,
    Bool.false_eq_true, if_false, markCompleting_config, add_operation_config,
    cleanup_session_config, markCompleted_config, stampCompletedAt_config,
    freezeDuration_config, hps, if_true, persistSession]
  split
  · refine ⟨_, _, rfl, ?_⟩
    simp only [removeSession_persisted, setSession]
    exact ⟨_, dictGet_dictSet_self _ _ _, rfl, rfl⟩
  · refine ⟨_, _, rfl, ?_⟩
    exact ⟨_, dictGet_dictSet_self _ _ _, rfl, rfl⟩

/-- C8 witness: the amended theorem applied to the concrete `default`
session of `mDefault`. -/
theorem c8_witness :
    dictGet mDefault.sessions "sidA" = some sDefault ∧
    sDefault.config.persist_state = true ∧
    (∃ m' v, complete_session mDefault 7 "sidA" none none false =
        (m', Except.ok v) ∧
      ∃ sF : Session, dictGet m'.persisted sDefault.session_id =
          some (sF.to_dict 7) ∧
        sF.status = SessionStatus.completed ∧ sF.completed_at = some 7) :=
  ⟨rfl, rfl,
   c8_persist_on_complete mDefault 7 "sidA" none sDefault rfl rfl⟩

theorem persistSession_total_failed (m : SessionManager) (s : Session)
    (now : Int) (b : Bool) :
    (persistSession m s now b).total_sessions_failed =
      m.total_sessions_failed := by
  unfold persistSession
  split <;> rfl

theorem completeFail_eq {m₁ : SessionManager} {now : Int} {sid : String}
    {s : Session} {k : Nat} {m' : SessionManager} {e : Err}
    (h : completeFail m₁ now sid s k = (m', Except.error e)) :
    e = Err.injected k ∧
    dictGet m'.sessions sid =
      some (Session.add_error { s with status := SessionStatus.failed } now
        "completion_error" ("exception at statement " ++ toString k) none) ∧
    m'.total_sessions_failed = m₁.total_sessions_failed + 1 := by
  unfold completeFail at h
  injection h with hm he
  injection he with he₂
  subst hm
  exact ⟨he₂.symm, dictGet_dictSet_self _ _ _, rfl⟩

theorem completeTail_error {m₁ : SessionManager} {now : Int} {sid : String}
    {s : Session} {fault : Option Nat} {m' : SessionManager} {e : Err}
    (h : completeTail m₁ now sid s fault = (m', Except.error e)) :
    ∃ k, e = Err.injected k ∧
      dictGet m'.sessions sid =
        some (Session.add_error { s with status := SessionStatus.failed } now
          "completion_error" ("exception at statement " ++ toString k) none) ∧
      m'.total_sessions_failed = m₁.total_sessions_failed + 1 := by
  unfold completeTail at h
  split at h
  · split at h
    · obtain ⟨he, hget₂, htot⟩ := completeFail_eq h
      exact ⟨8, he, hget₂, htot⟩
    · split at h
      · obtain ⟨he, hget₂, htot⟩ := completeFail_eq h
        exact ⟨9, he, hget₂, htot⟩
      · injection h with hm he
        exact absurd he (by simp)
  · injection h with hm he
    exact absurd he (by simp)

/-- C6: if any exception escapes the body of `complete_session` after the
session was found (`fault` fired at some executed statement, so the result
is an error), then the session is left registered with status forced to
FAILED, exactly one new entry of type `completion_error` is appended to
its error log, the lifetime failure counter is incremented by one, and the
propagated error is the injected exception itself — completion never fails
silently and no session is left in COMPLETING. -/
theorem c6_complete_failure_handling (m : SessionManager) (now : Int)
    (sid : String) (data : Option (List (String × PyVal)))
    (fault : Option Nat) (pF : Bool) (s : Session) (m' : SessionManager)
    (e : Err) (hget : dictGet m.sessions sid = some s)
    (hres : complete_session m now sid data fault pF = (m', Except.error e)) :
    (∃ k, e = Err.injected k) ∧
    (∃ sF : Session, ∃ en : ErrorEntry,
       dictGet m'.sessions sid = some sF ∧
       sF.status = SessionStatus.failed ∧
       sF.error_log = s.error_log ++ [en] ∧ en.type = "completion_error") ∧
    m'.total_sessions_failed = m.total_sessions_failed + 1 := by
  simp only [complete_session, hget, markCompleting_config,
    add_operation_config, cleanup_session_config, markCompleted_config,
    stampCompletedAt_config, freezeDuration_config] at hres
  by_cases h0 : faultHit fault 0 = true
  · rw [if_pos h0] at hres
    obtain ⟨he, hget₂, htot⟩ := completeFail_eq hres
    subst he
    refine ⟨⟨_, rfl⟩, ⟨_, _, hget₂, rfl, rfl, rfl⟩, ?_⟩
    rw [htot]
  · rw [if_neg h0] at hres
    by_cases h1 : faultHit fault 1 = true
    · rw [if_pos h1] at hres
      obtain ⟨he, hget₂, htot⟩ := completeFail_eq hres
      subst he
      refine ⟨⟨_, rfl⟩, ⟨_, _, hget₂, rfl, rfl, rfl⟩, ?_⟩
      rw [htot]
    · rw [if_neg h1] at hres
      by_cases h2 : faultHit fault 2 = true
      · rw [if_pos h2] at hres
        obtain ⟨he, hget₂, htot⟩ := completeFail_eq hres
        subst he
        refine ⟨⟨_, rfl⟩, ⟨_, _, hget₂, rfl, rfl, rfl⟩, ?_⟩
        rw [htot]
      · rw [if_neg h2] at hres
        by_cases h3 : faultHit fault 3 = true
        · rw [if_pos h3] at hres
          obtain ⟨he, hget₂, htot⟩ := completeFail_eq hres
          subst he
          refine ⟨⟨_, rfl⟩, ⟨_, _, hget₂, rfl, rfl, rfl⟩, ?_⟩
          rw [htot]
        · rw [if_neg h3] at hres
          by_cases h4 : faultHit fault 4 = true
          · rw [if_pos h4] at hres
            obtain ⟨he, hget₂, htot⟩ := completeFail_eq hres
            subst he
            refine ⟨⟨_, rfl⟩, ⟨_, _, hget₂, rfl, rfl, rfl⟩, ?_⟩
            rw [htot]
          · rw [if_neg h4] at hres
            by_cases h5 : faultHit fault 5 = true
            · rw [if_pos h5] at hres
              obtain ⟨he, hget₂, htot⟩ := completeFail_eq hres
              subst he
              refine ⟨⟨_, rfl⟩, ⟨_, _, hget₂, rfl, rfl, rfl⟩, ?_⟩
              rw [htot]
            · rw [if_neg h5] at hres
              by_cases h6 : faultHit fault 6 = true
              · rw [if_pos h6] at hres
                obtain ⟨he, hget₂, htot⟩ := completeFail_eq hres
                subst he
                refine ⟨⟨_, rfl⟩, ⟨_, _, hget₂, rfl, rfl, rfl⟩, ?_⟩
                rw [htot]
              · rw [if_neg h6] at hres
                by_cases hp : s.config.persist_state = true
                · rw [if_pos hp] at hres
                  by_cases h7 : faultHit fault 7 = true
                  · rw [if_pos h7] at hres
                    obtain ⟨he, hget₂, htot⟩ := completeFail_eq hres
                    subst he
                    refine ⟨⟨_, rfl⟩, ⟨_, _, hget₂, rfl, rfl, rfl⟩, ?_⟩
                    rw [htot]
                  · rw [if_neg h7] at hres
                    obtain ⟨k, he, hget₂, htot⟩ := completeTail_error hres
                    subst he
                    refine ⟨⟨_, rfl⟩, ⟨_, _, hget₂, rfl, rfl, rfl⟩, ?_⟩
                    rw [htot]
                    simp [persistSession_total_failed]
                · rw [if_neg hp] at hres
                  obtain ⟨k, he, hget₂, htot⟩ := completeTail_error hres
                  subst he
                  refine ⟨⟨_, rfl⟩, ⟨_, _, hget₂, rfl, rfl, rfl⟩, ?_⟩
                  rw [htot]

/-- C6 witness: the theorem applied to the concrete trace in which
completing the `development` session of `mDev` raises at the first
statement of the body. -/
theorem c6_witness :
    dictGet mDev.sessions "sid1" = some sActive ∧
    complete_session mDev 1 "sid1" none (some 0) false =
      (mDevFailed, Except.error (Err.injected 0)) ∧
    ((∃ k, Err.injected 0 = Err.injected k) ∧
     (∃ sF : Session, ∃ en : ErrorEntry,
        dictGet mDevFailed.sessions "sid1" = some sF ∧
        sF.status = SessionStatus.failed ∧
        sF.error_log = sActive.error_log ++ [en] ∧
        en.type = "completion_error") ∧
     mDevFailed.total_sessions_failed = mDev.total_sessions_failed + 1) :=
  ⟨rfl, rfl,
   c6_complete_failure_handling mDev 1 "sid1" none (some 0) false sActive
     mDevFailed (Err.injected 0) rfl rfl⟩

/-- C7: if `start_session` fails at any point after generating the fresh
session id (any fault, or the precondition failures), then afterwards no
session with that id is registered and no session in the live collection
is INITIALIZING — the except handler always unregisters the half-built
session before re-raising. -/
theorem c7_start_failure_cleanup (m : SessionManager) (now : Int)
    (sid ty : String) (cfg : Option (List (String × PyVal)))
    (fault : Option Nat) (m' : SessionManager) (e : Err)
    (hr : Reachable m) (hfresh : dictGet m.sessions sid = none)
    (hres : start_session m now sid ty cfg fault = (m', Except.error e)) :
    dictGet m'.sessions sid = none ∧ no_initializing m'.sessions = true := by
  have hinv := reachable_inv hr
  simp only [start_session, startFail] at hres
  by_cases hi : m.initialized = false
  · rw [if_pos hi] at hres
    injection hres with hm he
    subst hm
    exact ⟨hfresh, no_initializing_of_inv hinv⟩
  · rw [if_neg hi] at hres
    by_cases hc : m.max_concurrent_sessions ≤ m.sessions.length
    · rw [if_pos hc] at hres
      injection hres with hm he
      subst hm
      exact ⟨hfresh, no_initializing_of_inv hinv⟩
    · rw [if_neg hc] at hres
      by_cases h0 : faultHit fault 0 = true
      · rw [if_pos h0] at hres
        injection hres with hm he
        subst hm
        constructor
        · simp only [removeSession, dictHasKey, hfresh, Option.isSome_none,
            Bool.false_eq_true, if_false]
        · simp only [removeSession, dictHasKey, hfresh, Option.isSome_none,
            Bool.false_eq_true, if_false]
          exact no_initializing_of_inv hinv
      · rw [if_neg h0] at hres
        by_cases h1 : faultHit fault 1 = true
        · rw [if_pos h1] at hres
          injection hres with hm he
          subst hm
          constructor
          · simp only [removeSession, dictHasKey, hfresh, Option.isSome_none,
              Bool.false_eq_true, if_false]
          · simp only [removeSession, dictHasKey, hfresh, Option.isSome_none,
              Bool.false_eq_true, if_false]
            exact no_initializing_of_inv hinv
        · rw [if_neg h1] at hres
          by_cases h2 : faultHit fault 2 = true
          · rw [if_pos h2] at hres
            injection hres with hm he
            subst hm
            constructor
            · simp only [removeSession, dictHasKey, hfresh,
                Option.isSome_none, Bool.false_eq_true, if_false]
            · simp only [removeSession, dictHasKey, hfresh,
                Option.isSome_none, Bool.false_eq_true, if_false]
              exact no_initializing_of_inv hinv
          · rw [if_neg h2] at hres
            by_cases h3 : faultHit fault 3 = true
            · rw [if_pos h3] at hres
              injection hres with hm he
              subst hm
              constructor
              · simp only [removeSession, setSession, dictHasKey,
                  dictSet_dictSet, dictGet_dictSet_self, Option.isSome_some,
                  if_true]
                rw [dictRemove_dictSet_of_none hfresh]
                exact hfresh
              · simp only [removeSession, setSession, dictHasKey,
                  dictSet_dictSet, dictGet_dictSet_self, Option.isSome_some,
                  if_true]
                rw [dictRemove_dictSet_of_none hfresh]
                exact no_initializing_of_inv hinv
            · rw [if_neg h3] at hres
              by_cases h4 : faultHit fault 4 = true
              · rw [if_pos h4] at hres
                injection hres with hm he
                subst hm
                constructor
                · simp only [removeSession, setSession, dictHasKey,
                    dictSet_dictSet, dictGet_dictSet_self, Option.isSome_some,
                    if_true]
                  rw [dictRemove_dictSet_of_none hfresh]
                  exact hfresh
                · simp only [removeSession, setSession, dictHasKey,
                    dictSet_dictSet, dictGet_dictSet_self, Option.isSome_some,
                    if_true]
                  rw [dictRemove_dictSet_of_none hfresh]
                  exact no_initializing_of_inv hinv
              · rw [if_neg h4] at hres
                injection hres with hm he
                exact absurd he (by simp)

/-- C7 witness: the theorem applied to the initialized empty manager with
a fault injected before configuration resolution. -/
theorem c7_witness :
    Reachable mInit ∧ dictGet mInit.sessions "z" = none ∧
    start_session mInit 5 "z" "default" none (some 0) =
      (mInit, Except.error (Err.injected 0)) ∧
    (dictGet mInit.sessions "z" = none ∧
     no_initializing mInit.sessions = true) :=
  ⟨Reachable.init Reachable.base, rfl, rfl,
   c7_start_failure_cleanup mInit 5 "z" "default" none (some 0) mInit
     (Err.injected 0) (Reachable.init Reachable.base) rfl rfl⟩

theorem withInit_sessions (m : SessionManager) (b : Bool) :
    (withInit m b).sessions = m.sessions := rfl

theorem setSession_withInit (m : SessionManager) (b : Bool) (sid : String)
    (s : Session) :
    setSession (withInit m b) sid s = withInit (setSession m sid s) b := rfl

theorem removeSession_setSession_withInit (m : SessionManager) (b : Bool)
    (sid : String) (s : Session) :
    removeSession (setSession (withInit m b) sid s) sid =
      withInit (removeSession (setSession m sid s) sid) b := by
  unfold removeSession setSession withInit
  dsimp only
  split <;> rfl

theorem completeFail_withInit (m : SessionManager) (b : Bool) (now : Int)
    (sid : String) (s : Session) (k : Nat) :
    completeFail (withInit m b) now sid s k =
      (withInit (completeFail m now sid s k).1 b,
       (completeFail m now sid s k).2) := rfl

theorem completeTail_withInit (m : SessionManager) (b : Bool) (now : Int)
    (sid : String) (s : Session) (fault : Option Nat) :
    completeTail (withInit m b) now sid s fault =
      (withInit (completeTail m now sid s fault).1 b,
       (completeTail m now sid s fault).2) := by
  simp only [completeTail]
  repeat' split
  all_goals
    first
    | exact completeFail_withInit _ _ _ _ _ _
    | (rw [removeSession_setSession_withInit])
    | (rw [setSession_withInit])

theorem completeTail_persist_withInit (m : SessionManager) (b : Bool)
    (s : Session) (now : Int) (pf : Bool) (sid : String)
    (fault : Option Nat) :
    completeTail (persistSession (withInit m b) s now pf) now sid s fault =
      (withInit (completeTail (persistSession m s now pf) now sid s
          fault).1 b,
       (completeTail (persistSession m s now pf) now sid s fault).2) := by
  cases pf with
  | true => exact completeTail_withInit m b now sid s fault
  | false =>
      exact completeTail_withInit
        { m with persisted := (dictSet m.persisted s.session_id (s.to_dict now)) }
        b now sid s fault

/-- C10: calling `start_session` before `initialize()` fails with the
not-initialized error and leaves the entire state (live collection,
creation counter, everything) unchanged — and this check fires regardless
of capacity, i.e. before the capacity check.  The other public operations
(`pause_session`, `resume_session`, `complete_session`,
`get_session_status`) do not read the `initialized` flag at all: flipping
the flag commutes with each of them. -/
theorem c10_initialization_gate (m : SessionManager) (now : Int)
    (sid ty : String) (cfg : Option (List (String × PyVal)))
    (fault : Option Nat) (data : Option (List (String × PyVal)))
    (cfault : Option Nat) (pF : Bool) (q : Option String) (b : Bool) :
    (m.initialized = false →
      start_session m now sid ty cfg fault = (m, .error .notInitialized)) ∧
    pause_session (withInit m b) now sid =
      (withInit (pause_session m now sid).1 b, (pause_session m now sid).2) ∧
    resume_session (withInit m b) now sid =
      (withInit (resume_session m now sid).1 b,
       (resume_session m now sid).2) ∧
    complete_session (withInit m b) now sid data cfault pF =
      (withInit (complete_session m now sid data cfault pF).1 b,
       (complete_session m now sid data cfault pF).2) ∧
    get_session_status (withInit m b) now q = get_session_status m now q := by
  refine ⟨?_, ?_, ?_, ?_, ?_⟩
  · intro h
    unfold start_session
    rw [if_pos h]
  · simp only [pause_session, withInit]
    cases hd : dictGet m.sessions sid with
    | none => rfl
    | some s =>
        dsimp only
        split <;> rfl
  · simp only [resume_session, withInit]
    cases hd : dictGet m.sessions sid with
    | none => rfl
    | some s =>
        dsimp only
        split <;> rfl
  · simp only [complete_session, withInit_sessions]
    cases hd : dictGet m.sessions sid with
    | none => rfl
    | some s =>
        dsimp only
        simp only [markCompleting_config, add_operation_config,
          cleanup_session_config, markCompleted_config,
          stampCompletedAt_config, freezeDuration_config]
        by_cases h0 : faultHit cfault 0 = true
        · simp only [if_pos h0]
          exact completeFail_withInit _ _ _ _ _ _
        · simp only [if_neg h0]
          by_cases h1 : faultHit cfault 1 = true
          · simp only [if_pos h1]
            exact completeFail_withInit _ _ _ _ _ _
          · simp only [if_neg h1]
            by_cases h2 : faultHit cfault 2 = true
            · simp only [if_pos h2]
              exact completeFail_withInit _ _ _ _ _ _
            · simp only [if_neg h2]
              by_cases h3 : faultHit cfault 3 = true
              · simp only [if_pos h3]
                exact completeFail_withInit _ _ _ _ _ _
              · simp only [if_neg h3]
                by_cases h4 : faultHit cfault 4 = true
                · simp only [if_pos h4]
                  exact completeFail_withInit _ _ _ _ _ _
                · simp only [if_neg h4]
                  by_cases h5 : faultHit cfault 5 = true
                  · simp only [if_pos h5]
                    exact completeFail_withInit _ _ _ _ _ _
                  · simp only [if_neg h5]
                    by_cases h6 : faultHit cfault 6 = true
                    · simp only [if_pos h6]
                      exact completeFail_withInit _ _ _ _ _ _
                    · simp only [if_neg h6]
                      by_cases hp : s.config.persist_state = true
                      · simp only [if_pos hp]
                        by_cases h7 : faultHit cfault 7 = true
                        · simp only [if_pos h7]
                          exact completeFail_withInit
                            { m with total_sessions_completed :=
                                m.total_sessions_completed + 1 } b now sid _ _
                        · simp only [if_neg h7]
                          exact completeTail_persist_withInit
                            { m with total_sessions_completed :=
                                m.total_sessions_completed + 1 } b _ now pF
                            sid cfault
                      · simp only [if_neg hp]
                        exact completeTail_withInit
                          { m with total_sessions_completed :=
                              m.total_sessions_completed + 1 } b now sid _
                          cfault
  · cases q with
    | none => rfl
    | some sid₂ =>
        simp only [get_session_status, withInit]

/-- C10 witness: the theorem applied to the freshly constructed,
not-yet-initialized manager. -/
theorem c10_witness :
    initialManager.initialized = false ∧
    start_session initialManager 0 "w" "default" none none =
      (initialManager, .error .notInitialized) :=
  ⟨rfl,
   (c10_initialization_gate initialManager 0 "w" "default" none none none
      none false none false).1 rfl⟩

end SessionModel
